import Mathlib

/-!
Verification of the music playback subsystem of the discord-bot repository
(`src/cogs/music_cog.py`) against its natural-language specification.

The Python code is shallowly embedded: each Lean definition mirrors one
function (or one clearly delimited code path) of the source, with the line
numbers given in the doc comments.  Time is modelled as `Nat` seconds,
`datetime.now()` becomes an explicit `now : Nat` parameter, durations for
`asyncio.sleep` are recorded in milliseconds, the filesystem is the list of
file names in the player's music directory, and the non-reentrant
`asyncio.Lock` objects are modelled explicitly: acquiring a lock that the
(single, cooperative) running task already holds can never succeed, which the
execution models report as `.deadlock`.
-/

namespace MusicBot

/-- `SongData` (music_cog.py lines 31-51): one cache-ledger entry.
`added_at` is seconds since an arbitrary epoch; `download_future` is not a
value but an in-flight task, so it is represented where needed by the
oracles of the execution models rather than by a field. -/
structure SongData where
  title : String
  url : String
  thumbnail : String
  duration : Nat
  file_path : Option String
  is_downloading : Bool
  added_at : Nat
  download_retries : Nat
  max_retries : Nat
deriving DecidableEq, Repr

/-- Constant `MAX_RETRIES = 3` (line 57). -/
def MAX_RETRIES : Nat := 3

/-- Constant `MAX_QUEUE_SIZE = 1000` (line 59, commented "Added queue size
limit"); it is declared in the source but never read. -/
def MAX_QUEUE_SIZE : Nat := 1000

/-- Constant `DOWNLOAD_TIMEOUT = 180` seconds (line 55). -/
def DOWNLOAD_TIMEOUT : Nat := 180

/-- `CacheManager.max_cache_size = 100` (line 179). -/
def max_cache_size : Nat := 100

/-- Result of running a coroutine of the cache manager: either it returns
with the new state, or it suspends forever on `self.lock` (a non-reentrant
`asyncio.Lock`) because the same task already holds that lock. -/
inductive Exec (α : Type) where
  | ok (a : α) : Exec α
  | deadlock : Exec α
deriving DecidableEq, Repr

/-- The process-wide cache ledger state: `self.cache` as an insertion-ordered
association list (a Python dict), plus the set of files on disk that
`remove` may delete. -/
structure CacheState where
  entries : List (String × SongData)
  files : List String
deriving DecidableEq, Repr

/-- Dictionary lookup `self.cache.get(song_id)` (line 184). -/
def cacheLookup (c : List (String × SongData)) (k : String) : Option SongData :=
  (c.find? (fun kv => kv.1 = k)).map (fun kv => kv.2)

/-- Dictionary store `self.cache[song_id] = song_data` (line 193): updating a
present key keeps its position, a new key is appended. -/
def dictInsert (c : List (String × SongData)) (k : String) (v : SongData) :
    List (String × SongData) :=
  if (c.find? (fun kv => kv.1 = k)).isSome then
    c.map (fun kv => if kv.1 = k then (k, v) else kv)
  else c ++ [(k, v)]

/-- Body of `CacheManager.remove` (lines 195-206) once the lock is held:
delete the entry's backing file if it exists, then pop the entry. -/
def removeBody (s : CacheState) (song_id : String) : CacheState :=
  match cacheLookup s.entries song_id with
  | none => s
  | some e =>
      let files := match e.file_path with
        | some fp => if fp ∈ s.files then s.files.erase fp else s.files
        | none => s.files
      { entries := s.entries.filter (fun kv => kv.1 ≠ song_id), files := files }

/-- `CacheManager.remove` (lines 195-206).  It opens with
`async with self.lock`; `locked` says whether the calling task already holds
that same lock, in which case the acquire suspends forever. -/
def removeExec (locked : Bool) (s : CacheState) (song_id : String) : Exec CacheState :=
  if locked then Exec.deadlock else Exec.ok (removeBody s song_id)

/-- `min(self.cache.items(), key=lambda x: x[1].added_at)` over a non-empty
tail (line 191): Python's `min` keeps the first minimum in iteration order. -/
def oldestGo (best : String × SongData) : List (String × SongData) → String
  | [] => best.1
  | kv :: rest =>
      if kv.2.added_at < best.2.added_at then oldestGo kv rest else oldestGo best rest

/-- The key evicted by `CacheManager.set` when the cache is full (line 191):
the first entry with minimal `added_at`, chosen with no regard to its
download state. -/
def oldestKey : List (String × SongData) → Option String
  | [] => none
  | kv :: rest => some (oldestGo kv rest)

/-- `CacheManager.set` (lines 186-193).  After acquiring `self.lock`, if the
key is new and the cache is full it calls `await self.remove(oldest_id)` while
still holding the lock, then stores the entry. -/
def setExec (locked : Bool) (s : CacheState) (song_id : String) (v : SongData) :
    Exec CacheState :=
  if locked then Exec.deadlock
  else if (cacheLookup s.entries song_id).isNone ∧ max_cache_size ≤ s.entries.length then
    match oldestKey s.entries with
    | some oldest =>
        match removeExec true s oldest with
        | Exec.deadlock => Exec.deadlock
        | Exec.ok s' => Exec.ok { s' with entries := dictInsert s'.entries song_id v }
    | none => Exec.ok { s with entries := dictInsert s.entries song_id v }
  else Exec.ok { s with entries := dictInsert s.entries song_id v }

/-- The ids collected by `CacheManager.cleanup_expired` (lines 246-252): entries
older than one hour such that `not data.is_downloading or
data.download_retries >= data.max_retries`. -/
def expiredIds (now : Nat) (entries : List (String × SongData)) : List String :=
  (entries.filter (fun kv =>
      decide (3600 < now - kv.2.added_at) &&
        (!kv.2.is_downloading || decide (kv.2.max_retries ≤ kv.2.download_retries)))).map
    (fun kv => kv.1)

/-- The removal loop of `cleanup_expired` (lines 254-256): each iteration is
`await self.remove(song_id)` performed while `cleanup_expired` itself still
holds `self.lock`. -/
def cleanupExpiredGo : List String → CacheState → Exec CacheState
  | [], s => Exec.ok s
  | sid :: rest, s =>
      match removeExec true s sid with
      | Exec.deadlock => Exec.deadlock
      | Exec.ok s' => cleanupExpiredGo rest s'

/-- `CacheManager.cleanup_expired` (lines 242-258): acquire `self.lock`,
collect the expired ids, then remove each. -/
def cleanupExpiredExec (locked : Bool) (now : Nat) (s : CacheState) : Exec CacheState :=
  if locked then Exec.deadlock
  else cleanupExpiredGo (expiredIds now s.entries) s

/-- A cache entry whose download is in flight and has used all its retries,
created at time 0. -/
def dlExhausted : SongData :=
  { title := "t", url := "u", thumbnail := "th", duration := 100,
    file_path := none, is_downloading := true, added_at := 0,
    download_retries := 3, max_retries := 3 }

/-- A fresh, fully downloaded entry created at time 100. -/
def readyLater : SongData :=
  { title := "t2", url := "u2", thumbnail := "th2", duration := 50,
    file_path := some "beef1234-t2.opus", is_downloading := false, added_at := 100,
    download_retries := 0, max_retries := 3 }

/-- Force the download flag of an entry. -/
def markDl (e : SongData) : SongData := { e with is_downloading := true }

theorem oldestGo_markDl (b : String × SongData) (l : List (String × SongData)) :
    oldestGo (b.1, markDl b.2) (l.map (fun kv => (kv.1, markDl kv.2))) = oldestGo b l := by
  induction l generalizing b with
  | nil => rfl
  | cons kv rest ih =>
      simp only [List.map_cons, oldestGo, markDl]
      by_cases h : kv.2.added_at < b.2.added_at
      · simp only [h, if_true]
        exact ih kv
      · simp only [h, if_false]
        exact ih b

/-- C3 counterexample: the claim "no eviction path ever removes a downloading
entry" is false on the code.  At time 4000 the expiry scan of
`cleanup_expired` SELECTS for removal the entry `"a"`, which is still
`is_downloading` (its retry count has reached `max_retries`, and the scan's
condition `not data.is_downloading or data.download_retries >= data.max_retries`
then admits it); and when the cache is full, the eviction victim chosen by
`CacheManager.set` is the oldest entry `"a"` even though it is downloading —
there is no skip. -/
theorem eviction_downloading_counterexample :
    expiredIds 4000 [("a", dlExhausted)] = ["a"] ∧
    dlExhausted.is_downloading = true ∧
    oldestKey [("a", dlExhausted), ("b", readyLater)] = some "a" := by
  decide

/-- C3 amended: the expiry scan selects exactly the entries older than one
hour that are either not downloading or have exhausted their retries (so a
downloading entry is skipped only while `download_retries < max_retries`);
and the eviction victim of the size-bounded insert is chosen purely by
`added_at`, with no regard to the download state (forcing every entry's
`is_downloading` flag does not change the choice). -/
theorem eviction_selection_spec (now : Nat) (entries : List (String × SongData))
    (sid : String) :
    (sid ∈ expiredIds now entries ↔
      ∃ e, (sid, e) ∈ entries ∧ 3600 < now - e.added_at ∧
        (e.is_downloading = false ∨ e.max_retries ≤ e.download_retries)) ∧
    oldestKey (entries.map (fun kv => (kv.1, markDl kv.2))) = oldestKey entries := by
  constructor
  · constructor
    · intro h
      simp only [expiredIds, List.mem_map, List.mem_filter] at h
      obtain ⟨⟨k, e⟩, ⟨hmem, hcond⟩, hk⟩ := h
      subst hk
      refine ⟨e, hmem, ?_, ?_⟩
      · have := (Bool.and_eq_true _ _).mp hcond
        exact of_decide_eq_true this.1
      · have hc := ((Bool.and_eq_true _ _).mp hcond).2
        rcases (Bool.or_eq_true _ _).mp hc with h1 | h2
        · exact Or.inl (by simpa using h1)
        · exact Or.inr (of_decide_eq_true h2)
    · intro h
      obtain ⟨e, hmem, hage, hdl⟩ := h
      simp only [expiredIds, List.mem_map, List.mem_filter]
      refine ⟨(sid, e), ⟨hmem, ?_⟩, rfl⟩
      refine (Bool.and_eq_true _ _).mpr ⟨decide_eq_true hage, ?_⟩
      refine (Bool.or_eq_true _ _).mpr ?_
      rcases hdl with h1 | h2
      · exact Or.inl (by simp [h1])
      · exact Or.inr (decide_eq_true h2)
  · cases entries with
    | nil => rfl
    | cons kv rest =>
        simp only [List.map_cons, oldestKey]
        exact congrArg some (oldestGo_markDl kv rest)

/-- Witness for `eviction_selection_spec` at a concrete input: the downloading
entry `"a"` with exhausted retries really is selected by the scan. -/
theorem eviction_selection_spec_witness :
    "a" ∈ expiredIds 4000 [("a", dlExhausted)] :=
  (eviction_selection_spec 4000 [("a", dlExhausted)] "a").1.mpr
    ⟨dlExhausted, by decide, by decide, by decide⟩

/-- A cache holding `max_cache_size` copies of a downloading entry. -/
def fullCache : CacheState :=
  { entries := List.replicate max_cache_size ("a", dlExhausted), files := [] }

/-- A one-entry cache whose entry is expired at time 4000. -/
def smallCache : CacheState :=
  { entries := [("a", dlExhausted)], files := [] }

/-- C10: `CacheManager.set` on the eviction path and `cleanup_expired` with at
least one expired entry both block forever: each calls `remove`, which tries
to acquire the manager's non-reentrant `asyncio.Lock` while the caller itself
still holds it.  The non-eviction paths (key present or cache below capacity,
no expired entry) do terminate. -/
theorem cache_lock_deadlock :
    setExec false fullCache "b" readyLater = Exec.deadlock ∧
    cleanupExpiredExec false 4000 smallCache = Exec.deadlock ∧
    setExec false smallCache "b" readyLater
      = Exec.ok { entries := [("a", dlExhausted), ("b", readyLater)], files := [] } ∧
    cleanupExpiredExec false 0 smallCache = Exec.ok smallCache := by
  decide

/-- The metadata dict passed to `MusicPlayer.add_to_queue` (title,
webpage_url, thumbnail, duration). -/
structure SongMeta where
  title : String
  url : String
  thumbnail : String
  duration : Nat
deriving DecidableEq, Repr

/-- The per-player state touched by `add_to_queue`: the shared cache ledger,
the playback queue (`deque`, line 943, "Removed maxlen limit"), and the song
ids for which a download task was created. -/
structure PlayerQueueState where
  cache : CacheState
  queue : List String
  started : List String
deriving DecidableEq, Repr

/-- `MusicPlayer.add_to_queue` (lines 1291-1313), run under the player's
`queue_lock`: look the id up in the shared cache; if present, no new entry
and no new download; if absent, store a fresh `is_downloading` entry via
`CacheManager.set` and create a download task.  Either way the id is
appended to the queue — there is no capacity check and no rejection. -/
def add_to_queue (now : Nat) (s : PlayerQueueState) (song_data : SongMeta)
    (song_id : String) : Exec PlayerQueueState :=
  match cacheLookup s.cache.entries song_id with
  | some _ => Exec.ok { s with queue := s.queue ++ [song_id] }
  | none =>
      let entry : SongData :=
        { title := song_data.title, url := song_data.url,
          thumbnail := song_data.thumbnail, duration := song_data.duration,
          file_path := none, is_downloading := true, added_at := now,
          download_retries := 0, max_retries := MAX_RETRIES }
      match setExec false s.cache song_id entry with
      | Exec.deadlock => Exec.deadlock
      | Exec.ok c' =>
          Exec.ok { cache := c', queue := s.queue ++ [song_id],
                    started := s.started ++ [song_id] }

/-- A player state whose queue already holds `MAX_QUEUE_SIZE` entries (the
same cached song requested 1000 times). -/
def atCapacityPlayer : PlayerQueueState :=
  { cache := { entries := [("s1", readyLater)], files := ["beef1234-t2.opus"] },
    queue := List.replicate MAX_QUEUE_SIZE "s1",
    started := [] }

/-- C2: enqueueing onto a queue that already holds the configured maximum
(`MAX_QUEUE_SIZE = 1000`) does NOT fail — `add_to_queue` has no capacity
check, no `QueueFullError` exists anywhere in the code, and the queue grows
to 1001 entries.  The constant `MAX_QUEUE_SIZE` is declared (line 59) but
never read, and the queue is built with `deque()` after deliberately removing
the `maxlen` bound (line 943). -/
theorem add_to_queue_exceeds_max_queue_size :
    add_to_queue 0 atCapacityPlayer ⟨"t2", "u2", "th2", 50⟩ "s1"
      = Exec.ok { atCapacityPlayer with queue := atCapacityPlayer.queue ++ ["s1"] } ∧
    (atCapacityPlayer.queue ++ ["s1"]).length = MAX_QUEUE_SIZE + 1 := by
  constructor
  · rfl
  · show (List.replicate MAX_QUEUE_SIZE "s1" ++ ["s1"]).length = MAX_QUEUE_SIZE + 1
    rw [List.length_append, List.length_replicate]
    rfl

/-- The player state read and written by the loop-toggle handlers. -/
structure LoopToggleState where
  current : Option String
  queue : List String
  loop : Bool
deriving DecidableEq, Repr

/-- `MusicCog.toggle_loop` (lines 1979-1998) and the control-view button
(lines 890-907): if there is no current track and the queue is empty, reply
and change nothing; otherwise `player.loop = not player.loop` — a binary
toggle, not a three-state cycle.  Nothing else is written. -/
def toggle_loop (s : LoopToggleState) : LoopToggleState :=
  if s.current = none ∧ s.queue = [] then s
  else { s with loop := !s.loop }

/-- C8 counterexample: with a track playing, applying `toggle_loop` three
times does NOT return the loop mode to its original value — the toggle is
binary, so three applications equal one. -/
theorem toggle_loop_three_not_id :
    toggle_loop (toggle_loop (toggle_loop ⟨some "a", [], false⟩))
      ≠ (⟨some "a", [], false⟩ : LoopToggleState) := by
  decide

/-- C8 amended: the loop toggle is an involution (two applications restore
the original state, whether or not the no-track guard fires), and a toggle
never changes the queue or the current track — it only flips the flag read
by `play_next`'s re-enqueue step. -/
theorem toggle_loop_spec (s : LoopToggleState) :
    toggle_loop (toggle_loop s) = s ∧
    (toggle_loop s).current = s.current ∧
    (toggle_loop s).queue = s.queue := by
  obtain ⟨c, q, l⟩ := s
  by_cases h : c = none ∧ q = []
  · simp [toggle_loop, h]
  · simp [toggle_loop, if_neg h, Bool.not_not]

/-- Program counter of one `enqueue` call for a fixed fingerprint `f`: the
call is atomic up to its suspension points, so it splits into the cache read
(`await cache_manager.get`, line 1294 / line 531) and, when the read found
nothing, the cache write plus `asyncio.create_task(download…)` (lines
1301-1310 / lines 533-543). -/
inductive EnqPc where
  | start : EnqPc
  | checked (found : Bool) : EnqPc
  | enqDone : EnqPc
deriving DecidableEq, Repr

/-- Configuration of two concurrent `enqueue` calls for the same fingerprint
`f` on the shared ledger: whether the ledger has an entry for `f`, how many
download tasks for `f` are currently running, and each call's position. -/
structure RaceConf where
  cacheHasF : Bool
  inFlight : Nat
  pc1 : EnqPc
  pc2 : EnqPc
deriving DecidableEq, Repr

/-- One atomic step of an `enqueue` call: read the ledger, then — only if the
read found no entry — insert the entry and start a download task; a call
whose read found the entry attaches to its `download_future` instead and
starts nothing. -/
def enqStep (pc : EnqPc) (c : RaceConf) : EnqPc × RaceConf :=
  match pc with
  | EnqPc.start => (EnqPc.checked c.cacheHasF, c)
  | EnqPc.checked found =>
      if found then (EnqPc.enqDone, c)
      else (EnqPc.enqDone, { c with cacheHasF := true, inFlight := c.inFlight + 1 })
  | EnqPc.enqDone => (EnqPc.enqDone, c)

/-- Run one step of the call selected by the scheduler (`true` = first call). -/
def raceStep (c : RaceConf) (t : Bool) : RaceConf :=
  if t then
    let r := enqStep c.pc1 c
    { r.2 with pc1 := r.1 }
  else
    let r := enqStep c.pc2 c
    { r.2 with pc2 := r.1 }

/-- Run a cooperative schedule (a list of which call runs next). -/
def raceRun (c : RaceConf) (sched : List Bool) : RaceConf :=
  sched.foldl raceStep c

/-- Both calls at their entry point, no ledger entry for `f`, no download. -/
def raceInit : RaceConf :=
  ⟨false, 0, EnqPc.start, EnqPc.start⟩

/-- C1: under the interleaved schedule in which both enqueue calls perform
their cache read before either performs its write (possible because the read
and the write are separated by `await` suspension points, and the per-player
`queue_lock` does not serialize two different players — or two
`YTDLSource.from_url` calls, which take no lock at all), BOTH calls observe
the fingerprint as absent and each starts a download: two downloads for `f`
are in flight at once, violating the at-most-one invariant.  Under the
serialized schedule the second call attaches and only one download starts. -/
theorem enqueue_race_two_downloads_in_flight :
    (raceRun raceInit [true, false, true, false]).inFlight = 2 ∧
    (raceRun raceInit [true, true, false, false]).inFlight = 1 := by
  decide

/-- Outcome of one download attempt of `YTDLSource.download_song`: the
`asyncio.timeout(DOWNLOAD_TIMEOUT)` fires, some other exception is raised
(extraction error, downloaded file not found, ...), or an audio file is
produced at the given path. -/
inductive Attempt where
  | timedOut : Attempt
  | failed : Attempt
  | completed (path : String) : Attempt
deriving DecidableEq, Repr

/-- Is this attempt outcome a success? -/
def Attempt.isCompleted : Attempt → Bool
  | Attempt.completed _ => true
  | _ => false

/-- Result of `download_song`: the file path, or the `DownloadError` raised
after the last attempt (with its two distinct messages, lines 504 and 510). -/
inductive DlResult where
  | ok (path : String) : DlResult
  | errTimeout : DlResult
  | errFailed : DlResult
deriving DecidableEq, Repr

/-- Did the download produce a file? -/
def DlResult.isOk : DlResult → Bool
  | DlResult.ok _ => true
  | _ => false

/-- Observable trace of one `download_song` call: its result, the
`asyncio.sleep` durations between attempts in milliseconds, and the partial
files it removed on its failure path. -/
structure DownloadRun where
  result : DlResult
  sleeps : List Nat
  cleaned : List String
deriving DecidableEq, Repr

/-- The retry loop of `YTDLSource.download_song` (lines 441-512), with
`r` attempts remaining and `i` the current attempt index: on success return
the path; on timeout or failure, raise `DownloadError` if this was the last
attempt (`attempt == MAX_RETRIES - 1`), otherwise `await asyncio.sleep(1)` —
a constant one second — and try again.  No code path of the function removes
partial files (`cleanup_partial_downloads` is never called from here). -/
def download_song_go (oracle : Nat → Attempt) : Nat → Nat → DownloadRun
  | 0, _ => ⟨DlResult.errFailed, [], []⟩
  | r + 1, i =>
      match oracle i with
      | Attempt.completed p => ⟨DlResult.ok p, [], []⟩
      | Attempt.timedOut =>
          if r = 0 then ⟨DlResult.errTimeout, [], []⟩
          else
            let rest := download_song_go oracle r (i + 1)
            { rest with sleeps := 1000 :: rest.sleeps }
      | Attempt.failed =>
          if r = 0 then ⟨DlResult.errFailed, [], []⟩
          else
            let rest := download_song_go oracle r (i + 1)
            { rest with sleeps := 1000 :: rest.sleeps }

/-- `YTDLSource.download_song`: `for attempt in range(MAX_RETRIES)`. -/
def download_song (oracle : Nat → Attempt) : DownloadRun :=
  download_song_go oracle MAX_RETRIES 0

/-- C6 counterexample: when every attempt fails, the delays between the three
attempts are a constant 1000 ms each — not the claimed exponential backoff of
roughly 1000 ms then 1500 ms (they are not even strictly increasing) — and
the failing call removes no partial file fragments at all:
`cleanup_partial_downloads` exists (lines 427-439) but is never invoked from
the download path. -/
theorem download_backoff_counterexample :
    (download_song (fun _ => Attempt.failed)).sleeps = [1000, 1000] ∧
    ¬ (download_song (fun _ => Attempt.failed)).sleeps ≠ [1000, 1000] ∧
    ¬ List.Chain' (· < ·) (download_song (fun _ => Attempt.failed)).sleeps ∧
    (download_song (fun _ => Attempt.failed)).result = DlResult.errFailed ∧
    (download_song (fun _ => Attempt.failed)).cleaned = [] := by
  refine ⟨rfl, ?_, ?_, rfl, rfl⟩
  · simp [download_song, download_song_go, MAX_RETRIES]
  · have h : (download_song (fun _ => Attempt.failed)).sleeps = [1000, 1000] := rfl
    rw [h]
    simp [List.chain'_cons]

/-- C6 amended: `download_song` makes at most `MAX_RETRIES` (3) attempts,
sleeping a fixed 1000 ms between consecutive attempts (so at most 2 sleeps);
each attempt is bounded by the 180 s `asyncio.timeout`; if none of the three
attempts completes, the call ends in a `DownloadError` and removes no
partial fragments; if the first attempt completes, its path is returned. -/
theorem download_retry_spec (oracle : Nat → Attempt) (p : String) :
    (download_song oracle).sleeps.all (fun d => d == 1000) = true ∧
    (download_song oracle).sleeps.length ≤ MAX_RETRIES - 1 ∧
    ((oracle 0).isCompleted = false → (oracle 1).isCompleted = false →
      (oracle 2).isCompleted = false →
      (download_song oracle).result.isOk = false ∧ (download_song oracle).cleaned = []) ∧
    (oracle 0 = Attempt.completed p → (download_song oracle).result = DlResult.ok p) := by
  have e : download_song oracle = download_song_go oracle 3 0 := rfl
  rw [e]
  cases h0 : oracle 0 <;> cases h1 : oracle 1 <;> cases h2 : oracle 2 <;>
    simp_all [download_song_go, Attempt.isCompleted, DlResult.isOk, MAX_RETRIES]

/-- Witness for `download_retry_spec`: with every attempt failing, the
result is an error and nothing is cleaned; the hypotheses are discharged by
evaluation. -/
theorem download_retry_spec_witness :
    (download_song (fun _ => Attempt.failed)).result.isOk = false ∧
    (download_song (fun _ => Attempt.failed)).cleaned = [] :=
  (download_retry_spec (fun _ => Attempt.failed) "p").2.2.1 rfl rfl rfl

/-- The in-place swap `x[i], x[j] = x[j], x[i]` performed by CPython's
`random.shuffle` on the player's queue. -/
def listSwap {α : Type} (l : List α) (i j : Nat) : List α :=
  match l[i]?, l[j]? with
  | some a, some b => (l.set i b).set j a
  | _, _ => l

theorem cons_set_perm {α : Type} (b a : α) (xs : List α) (k : Nat)
    (h : xs[k]? = some b) : (b :: xs.set k a).Perm (a :: xs) := by
  induction xs generalizing k with
  | nil => simp at h
  | cons y t ih =>
      cases k with
      | zero =>
          have hb : y = b := by simpa using h
          show (b :: a :: t).Perm (a :: y :: t)
          rw [← hb]
          exact List.Perm.swap a y t
      | succ k' =>
          have hk : t[k']? = some b := by simpa using h
          show (b :: y :: t.set k' a).Perm (a :: y :: t)
          exact (List.Perm.swap y b _).trans
            (((ih k' hk).cons y).trans (List.Perm.swap a y t))

theorem set_set_perm {α : Type} (l : List α) (i j : Nat) (a b : α)
    (hi : l[i]? = some a) (hj : l[j]? = some b) :
    ((l.set i b).set j a).Perm l := by
  induction l generalizing i j with
  | nil => simp at hi
  | cons x t ih =>
      cases i with
      | zero =>
          have ha : x = a := by simpa using hi
          cases j with
          | zero =>
              show (a :: t).Perm (x :: t)
              rw [ha]
          | succ j' =>
              have hj' : t[j']? = some b := by simpa using hj
              show (b :: t.set j' a).Perm (x :: t)
              rw [ha]
              exact cons_set_perm b a t j' hj'
      | succ i' =>
          have hi' : t[i']? = some a := by simpa using hi
          cases j with
          | zero =>
              have hb : x = b := by simpa using hj
              show (a :: t.set i' b).Perm (x :: t)
              rw [hb]
              exact cons_set_perm a b t i' hi'
          | succ j' =>
              have hj' : t[j']? = some b := by simpa using hj
              show (x :: (t.set i' b).set j' a).Perm (x :: t)
              exact (ih i' j' hi' hj').cons x

theorem listSwap_perm {α : Type} (l : List α) (i j : Nat) :
    (listSwap l i j).Perm l := by
  unfold listSwap
  cases hi : l[i]? with
  | none => exact List.Perm.refl l
  | some a =>
      cases hj : l[j]? with
      | none => exact List.Perm.refl l
      | some b => exact set_set_perm l i j a b hi hj

/-- The loop of CPython's `random.shuffle`: `for i in reversed(range(1,
len(x))): j = randbelow(i+1); swap x[i], x[j]`.  The counter is the next
swap index; `rand i % (i+1)` models `randbelow`'s guarantee `0 ≤ j ≤ i`. -/
def fyAux {α : Type} (rand : Nat → Nat) : Nat → List α → List α
  | 0, l => l
  | i + 1, l => fyAux rand i (listSwap l (i + 1) (rand (i + 1) % (i + 2)))

/-- `random.shuffle(player.queue)` (line 926 and line 1949). -/
def pyShuffle {α : Type} (rand : Nat → Nat) (l : List α) : List α :=
  fyAux rand (l.length - 1) l

theorem fyAux_perm {α : Type} (rand : Nat → Nat) (i : Nat) (l : List α) :
    (fyAux rand i l).Perm l := by
  induction i generalizing l with
  | zero => exact List.Perm.refl l
  | succ i ih => exact (ih _).trans (listSwap_perm l (i + 1) (rand (i + 1) % (i + 2)))

theorem pyShuffle_perm {α : Type} (rand : Nat → Nat) (l : List α) :
    (pyShuffle rand l).Perm l :=
  fyAux_perm rand (l.length - 1) l

/-- The reply a shuffle request sends to the user. -/
inductive ShuffleReply where
  | emptyQueue : ShuffleReply
  | notEnoughSongs : ShuffleReply
  | shuffled : ShuffleReply
deriving DecidableEq, Repr

/-- The slash command `MusicCog.shuffle` (lines 1937-1955): only an EMPTY
queue is rejected; any non-empty queue — including a single-entry one — is
shuffled and answered with the success message. -/
def slashShuffle (rand : Nat → Nat) (q : List String) : List String × ShuffleReply :=
  if q.isEmpty then (q, ShuffleReply.emptyQueue)
  else (pyShuffle rand q, ShuffleReply.shuffled)

/-- The control-view button `MusicControlView.shuffle` (lines 919-930): a
queue with fewer than 2 entries is rejected with a failure message. -/
def buttonShuffle (rand : Nat → Nat) (q : List String) : List String × ShuffleReply :=
  if q.length < 2 then (q, ShuffleReply.notEnoughSongs)
  else (pyShuffle rand q, ShuffleReply.shuffled)

/-- C7 counterexample: the slash command on a single-entry queue (fewer than
2 entries) does NOT report failure — it reports the success message
(the queue itself is unchanged, since a one-element Fisher-Yates pass is the
identity). -/
theorem shuffle_single_reports_success :
    slashShuffle (fun _ => 0) ["a"] = (["a"], ShuffleReply.shuffled) ∧
    ShuffleReply.shuffled ≠ ShuffleReply.emptyQueue ∧
    ShuffleReply.shuffled ≠ ShuffleReply.notEnoughSongs := by
  decide

/-- C7 amended: the button path is a no-op reporting failure on fewer than 2
entries; the slash path rejects only the empty queue, and on any non-empty
queue (even a single entry) reports success; on every path that shuffles, the
result is a permutation of the original queue — no entry is lost or
duplicated. -/
theorem shuffle_spec (rand : Nat → Nat) (q : List String) :
    (q.length < 2 → buttonShuffle rand q = (q, ShuffleReply.notEnoughSongs)) ∧
    (q = [] → slashShuffle rand q = (q, ShuffleReply.emptyQueue)) ∧
    (q ≠ [] → (slashShuffle rand q).1.Perm q ∧
      (slashShuffle rand q).2 = ShuffleReply.shuffled) ∧
    (2 ≤ q.length → (buttonShuffle rand q).1.Perm q) := by
  refine ⟨?_, ?_, ?_, ?_⟩
  · intro h
    simp [buttonShuffle, h]
  · intro h
    subst h
    simp [slashShuffle]
  · intro h
    have he : q.isEmpty = false := by simpa [List.isEmpty_iff] using h
    constructor
    · simp only [slashShuffle, he, Bool.false_eq_true, if_false]
      exact pyShuffle_perm rand q
    · simp [slashShuffle, he]
  · intro h
    have h2 : ¬ q.length < 2 := by omega
    simp only [buttonShuffle, h2, if_false]
    exact pyShuffle_perm rand q

/-- Witness for `shuffle_spec`: the button rejects a one-entry queue; the
slash command's shuffle of a two-entry queue is a permutation of it. -/
theorem shuffle_spec_witness :
    buttonShuffle (fun _ => 0) ["a"] = (["a"], ShuffleReply.notEnoughSongs) ∧
    (slashShuffle (fun _ => 0) ["a", "b"]).1.Perm ["a", "b"] :=
  ⟨(shuffle_spec (fun _ => 0) ["a"]).1 (by decide),
   ((shuffle_spec (fun _ => 0) ["a", "b"]).2.2.1 (by decide)).1⟩

/-- The `self.current` dict built by `play_next` (lines 1514-1520): title,
duration, thumbnail, the backing file's path and the song id. -/
structure CurrentTrack where
  title : String
  duration : Nat
  thumbnail : String
  file_path : String
  song_id : String
deriving DecidableEq, Repr

/-- The `MusicPlayer` state touched by the cleanup paths.  `files` is the
content of the player's music directory (file names, which are full paths as
far as the code compares them); `voice_client = true` means a connected voice
client exists. -/
structure PlayerCleanState where
  files : List String
  voice_client : Bool
  current : Option CurrentTrack
  queue : List String
  download_queue : List String
  embed_message : Bool
  loop : Bool
  is_playing : Bool
  messages_to_clean : List Nat
deriving DecidableEq, Repr

/-- Python's `str.startswith`, computed on the character lists so that it
evaluates inside the kernel. -/
def startswith (pre s : String) : Bool :=
  pre.data.isPrefixOf s.data

/-- The music-directory content after `MusicPlayer.cleanup_file` (lines
1179-1199): unchanged if the path is falsy or the file does not exist;
unchanged if the path is the current track's `file_path`; otherwise the file
is deleted (the retry loop around `os.remove` ends with the file gone). -/
def cleanup_file_files (s : PlayerCleanState) (file_path : String) : List String :=
  if file_path = "" ∨ file_path ∉ s.files then s.files
  else
    match s.current with
    | some c => if c.file_path = file_path then s.files
        else s.files.erase file_path
    | none => s.files.erase file_path

/-- `MusicPlayer.cleanup_file` (lines 1179-1199): only `files` ever changes. -/
def cleanup_file (s : PlayerCleanState) (file_path : String) : PlayerCleanState :=
  { s with files := cleanup_file_files s file_path }

/-- `YTDLSource.cleanup_partial_downloads` (lines 427-439): remove every file
of the music directory whose name starts with the song id. -/
def cleanup_partial_downloads (s : PlayerCleanState) (song_id : String) :
    PlayerCleanState :=
  { s with files := s.files.filter (fun f => !(startswith song_id f)) }

/-- The loop of `cleanup_music_directory` over the snapshot of `os.listdir`. -/
def cleanup_dir_go : List String → PlayerCleanState → PlayerCleanState
  | [], s => s
  | f :: rest, s => cleanup_dir_go rest (cleanup_file s f)

/-- `MusicPlayer.cleanup_music_directory` (lines 1223-1230): `cleanup_file`
on every listed file. -/
def cleanup_music_directory (s : PlayerCleanState) : PlayerCleanState :=
  cleanup_dir_go s.files s

/-- The drain of `self.download_queue` inside `cleanup` (lines 1146-1153):
`cleanup_partial_downloads` for every queued song id. -/
def drain_download_queue : List String → PlayerCleanState → PlayerCleanState
  | [], s => s
  | sid :: rest, s => drain_download_queue rest (cleanup_partial_downloads s sid)

/-- Step of `cleanup` for the current track (lines 1137-1144): `cleanup_file`
on its path (a no-op, because `current` is still set) followed by
`cleanup_partial_downloads` on its song id — which DOES delete the backing
file, since the file name starts with the id. -/
def cleanup_current_step (s : PlayerCleanState) : PlayerCleanState :=
  match s.current with
  | some c => cleanup_partial_downloads (cleanup_file s c.file_path) c.song_id
  | none => s

/-- Step of `cleanup` draining `self.download_queue` (lines 1146-1153). -/
def cleanup_drain_step (s : PlayerCleanState) : PlayerCleanState :=
  { drain_download_queue s.download_queue s with download_queue := [] }

/-- Step of `cleanup` deleting the embedded message (line 1156). -/
def cleanup_embed_step (s : PlayerCleanState) : PlayerCleanState :=
  { s with embed_message := false }

/-- Final state reset of `cleanup` (lines 1168-1173). -/
def cleanup_reset_step (s : PlayerCleanState) : PlayerCleanState :=
  { s with queue := [], current := none, loop := false, is_playing := false }

/-- `MusicPlayer.cleanup` (lines 1116-1177): stop playback and disconnect the
voice client; clean the current track's files; drain the download queue;
delete the embedded message; clean the whole music directory; then reset
queue, current, loop and `is_playing`. -/
def player_cleanup (s : PlayerCleanState) : PlayerCleanState :=
  cleanup_reset_step (cleanup_music_directory (cleanup_embed_step
    (cleanup_drain_step (cleanup_current_step { s with voice_client := false }))))

/-- `MusicPlayer.cleanup_and_disconnect` (lines 1268-1286): delete the
tracked messages, then `cleanup`. -/
def cleanup_and_disconnect (s : PlayerCleanState) : PlayerCleanState :=
  player_cleanup { s with messages_to_clean := [] }

/-- One iteration of the occupancy watcher `check_voice_channel` (lines
1233-1266), run every 10 seconds: if a voice client exists and the bot is
alone in the channel (`len(members) <= 1`), clean up and disconnect. -/
def check_voice_iteration (members : Nat) (s : PlayerCleanState) : PlayerCleanState :=
  if s.voice_client = true ∧ members ≤ 1 then cleanup_and_disconnect s else s

theorem mem_files_cleanup_file (s : PlayerCleanState) (f x : String)
    (h : x ∈ (cleanup_file s f).files) : x ∈ s.files := by
  have h' : x ∈ cleanup_file_files s f := h
  unfold cleanup_file_files at h'
  split at h'
  · exact h'
  · split at h'
    · split at h'
      · exact h'
      · exact List.mem_of_mem_erase h'
    · exact List.mem_of_mem_erase h'

theorem mem_files_cleanup_partial (s : PlayerCleanState) (sid x : String)
    (h : x ∈ (cleanup_partial_downloads s sid).files) : x ∈ s.files := by
  unfold cleanup_partial_downloads at h
  exact List.mem_of_mem_filter h

theorem mem_files_drain (l : List String) (s : PlayerCleanState) (x : String)
    (h : x ∈ (drain_download_queue l s).files) : x ∈ s.files := by
  induction l generalizing s with
  | nil => exact h
  | cons sid rest ih =>
      exact mem_files_cleanup_partial s sid x (ih _ h)

theorem mem_files_cleanup_dir_go (l : List String) (s : PlayerCleanState) (x : String)
    (h : x ∈ (cleanup_dir_go l s).files) : x ∈ s.files := by
  induction l generalizing s with
  | nil => exact h
  | cons f rest ih =>
      exact mem_files_cleanup_file s f x (ih _ h)

theorem not_mem_cleanup_partial_of_pre (s : PlayerCleanState) (sid x : String)
    (hpre : startswith sid x = true) :
    x ∉ (cleanup_partial_downloads s sid).files := by
  intro h
  unfold cleanup_partial_downloads at h
  have := List.of_mem_filter h
  simp [hpre] at this

theorem voice_client_cleanup_dir_go (l : List String) (s : PlayerCleanState) :
    (cleanup_dir_go l s).voice_client = s.voice_client := by
  induction l generalizing s with
  | nil => rfl
  | cons f rest ih => exact ih (cleanup_file s f)

theorem voice_client_drain (l : List String) (s : PlayerCleanState) :
    (drain_download_queue l s).voice_client = s.voice_client := by
  induction l generalizing s with
  | nil => rfl
  | cons sid rest ih => exact ih (cleanup_partial_downloads s sid)

theorem voice_client_current_step (s : PlayerCleanState) :
    (cleanup_current_step s).voice_client = s.voice_client := by
  unfold cleanup_current_step
  cases s.current <;> rfl

theorem voice_client_reset_step (s : PlayerCleanState) :
    (cleanup_reset_step s).voice_client = s.voice_client := rfl

theorem voice_client_embed_step (s : PlayerCleanState) :
    (cleanup_embed_step s).voice_client = s.voice_client := rfl

theorem voice_client_drain_step (s : PlayerCleanState) :
    (cleanup_drain_step s).voice_client = s.voice_client :=
  voice_client_drain s.download_queue s

theorem voice_client_music_directory (s : PlayerCleanState) :
    (cleanup_music_directory s).voice_client = s.voice_client :=
  voice_client_cleanup_dir_go s.files s

theorem voice_client_player_cleanup (s : PlayerCleanState) :
    (player_cleanup s).voice_client = false := by
  unfold player_cleanup
  rw [voice_client_reset_step, voice_client_music_directory, voice_client_embed_step,
    voice_client_drain_step, voice_client_current_step]

/-- Reading the current-track step under a known `current`. -/
theorem cleanup_current_step_eq (t : PlayerCleanState) (c : CurrentTrack)
    (h : t.current = some c) :
    cleanup_current_step t
      = cleanup_partial_downloads (cleanup_file t c.file_path) c.song_id := by
  unfold cleanup_current_step
  rw [h]

theorem mem_files_current_step (t : PlayerCleanState) (c : CurrentTrack)
    (x : String) (h : x ∈ (cleanup_current_step t).files)
    (hc : t.current = some c) :
    x ∈ (cleanup_partial_downloads (cleanup_file t c.file_path) c.song_id).files := by
  rw [cleanup_current_step_eq t c hc] at h
  exact h

/-- C5: when the last human listener leaves (the bot is alone: at most one
member in the channel) while the voice client exists, a single pass of the
10-second occupancy watcher stops the player, clears the queue, disconnects
the voice client, and the file backing the current track (whose name starts
with the track's song id, as every file produced by `download_song` does) is
deleted from the music directory. -/
theorem voice_empty_cleanup_spec (s : PlayerCleanState) (members : Nat)
    (c : CurrentTrack) (hvc : s.voice_client = true) (hm : members ≤ 1)
    (hcur : s.current = some c) (hpre : startswith c.song_id c.file_path = true) :
    (check_voice_iteration members s).voice_client = false ∧
    (check_voice_iteration members s).queue = [] ∧
    (check_voice_iteration members s).current = none ∧
    (check_voice_iteration members s).is_playing = false ∧
    c.file_path ∉ (check_voice_iteration members s).files := by
  have hiter : check_voice_iteration members s = cleanup_and_disconnect s := by
    unfold check_voice_iteration
    rw [if_pos ⟨hvc, hm⟩]
  rw [hiter]
  unfold cleanup_and_disconnect
  refine ⟨voice_client_player_cleanup _, rfl, rfl, rfl, ?_⟩
  intro hmem
  have h5 := mem_files_cleanup_dir_go _ _ _ hmem
  have h3 := mem_files_drain _ _ _ h5
  have h2 := mem_files_current_step _ c _ h3 hcur
  exact not_mem_cleanup_partial_of_pre _ c.song_id c.file_path hpre h2

/-- Concrete player state for the cleanup witnesses. -/
def cleanupExample : PlayerCleanState :=
  { files := ["id1-song.opus", "id2-other.opus"],
    voice_client := true,
    current := some ⟨"song", 200, "th", "id1-song.opus", "id1"⟩,
    queue := ["id2"],
    download_queue := [],
    embed_message := true,
    loop := false,
    is_playing := true,
    messages_to_clean := [7] }

/-- Witness for `voice_empty_cleanup_spec` at `cleanupExample` with one
member left. -/
theorem voice_empty_cleanup_spec_witness :
    (check_voice_iteration 1 cleanupExample).voice_client = false ∧
    (check_voice_iteration 1 cleanupExample).queue = [] ∧
    (check_voice_iteration 1 cleanupExample).current = none ∧
    (check_voice_iteration 1 cleanupExample).is_playing = false ∧
    "id1-song.opus" ∉ (check_voice_iteration 1 cleanupExample).files :=
  voice_empty_cleanup_spec cleanupExample 1 ⟨"song", 200, "th", "id1-song.opus", "id1"⟩
    (by decide) (by decide) (by decide) (by decide)

/-- C9: `cleanup_file` never removes the file backing the current track: if
`current.file_path` equals the requested path, the call returns the state
unchanged — for every caller, since the guard is inside `cleanup_file`
itself; in particular `cleanup_music_directory`, which runs while `current`
is still set, preserves that file's presence. -/
theorem cleanup_file_preserves_current (s : PlayerCleanState) (c : CurrentTrack)
    (p : String) (hcur : s.current = some c) (hp : c.file_path = p) :
    cleanup_file s p = s ∧
    (p ∈ s.files → p ∈ (cleanup_music_directory s).files) := by
  have hfiles : ∀ t : PlayerCleanState, t.current = some c →
      cleanup_file_files t p = t.files := by
    intro t hc
    unfold cleanup_file_files
    rw [hc]
    by_cases h0 : p = "" ∨ p ∉ t.files
    · rw [if_pos h0]
    · rw [if_neg h0]
      show (if c.file_path = p then t.files else t.files.erase p) = t.files
      rw [if_pos hp]
  constructor
  · show ({ s with files := cleanup_file_files s p } : PlayerCleanState) = s
    rw [hfiles s hcur]
  · intro hmem
    have key : ∀ (l : List String) (t : PlayerCleanState), t.current = some c →
        p ∈ t.files → p ∈ (cleanup_dir_go l t).files := by
      intro l
      induction l with
      | nil =>
          intro t _ h
          exact h
      | cons f rest ih =>
          intro t hc h
          show p ∈ (cleanup_dir_go rest (cleanup_file t f)).files
          refine ih (cleanup_file t f) hc ?_
          show p ∈ cleanup_file_files t f
          unfold cleanup_file_files
          rw [hc]
          by_cases h0 : f = "" ∨ f ∉ t.files
          · rw [if_pos h0]
            exact h
          · rw [if_neg h0]
            show p ∈ (if c.file_path = f then t.files else t.files.erase f)
            by_cases hfp : c.file_path = f
            · rw [if_pos hfp]
              exact h
            · rw [if_neg hfp]
              have hne : p ≠ f := fun he => hfp (hp.trans he)
              exact (List.mem_erase_of_ne hne).mpr h
    exact key s.files s hcur hmem

/-- Witness for `cleanup_file_preserves_current` at `cleanupExample`. -/
theorem cleanup_file_preserves_current_witness :
    cleanup_file cleanupExample "id1-song.opus" = cleanupExample ∧
    ("id1-song.opus" ∈ cleanupExample.files →
      "id1-song.opus" ∈ (cleanup_music_directory cleanupExample).files) :=
  cleanup_file_preserves_current cleanupExample
    ⟨"song", 200, "th", "id1-song.opus", "id1"⟩ "id1-song.opus" (by decide) (by decide)


/-- The `MusicPlayer` state read and written by `play_next` (lines
1457-1531).  `nowPlaying` is the title shown by the "now playing" embed
(`none` = cleared / "no current song"); `playingFile` is the file handed to
`voice_client.play`; `afterHookSet` records that the `after=` completion
callback (which re-invokes `play_next`) was registered. -/
structure PNState where
  queue : List String
  current : Option CurrentTrack
  loop : Bool
  nowPlaying : Option String
  voice_connected : Bool
  playingFile : Option String
  afterHookSet : Bool
deriving DecidableEq, Repr

/-- The environment `play_next` runs against: the shared cache at lookup
time, the outcome of `asyncio.wait_for(song_entry.download_future, 30)`
(`none` = the 30 s timeout fired; `some e` = the future resolved and `e` is
the state of the same `SongData` object afterwards — `_download_song` mutates
it in place), and `os.path.exists`. -/
structure PNEnv where
  cache : String → Option SongData
  waitDownload : String → Option SongData
  fileExists : String → Bool

/-- `cleanup_embed_message` at the top of `play_next` (line 1462). -/
def pnAfterEmbed (s : PNState) : PNState :=
  { s with nowPlaying := none }

/-- The loop-mode step (lines 1465-1469): if `self.loop and self.current`
and the current song id is not in the queue, push it back at the front. -/
def pnLoopStep (s : PNState) : PNState :=
  match s.current with
  | some c =>
      if s.loop = true ∧ c.song_id ∉ s.queue then { s with queue := c.song_id :: s.queue }
      else s
  | none => s

/-- How `play_next` proceeds on the head of the queue. -/
inductive PNDecision where
  | goIdle : PNDecision
  | dropHead : PNDecision
  | startPlay (song_id : String) (e : SongData) (fp : String) : PNDecision
  | noVoice : PNDecision
deriving DecidableEq, Repr

/-- The branch structure of `play_next` for a non-empty queue (lines
1477-1527): head id missing from the cache (line 1480) → drop; if the entry
is downloading, await its future for 30 s — timeout (line 1489) → drop; no
file path or file absent on disk (line 1495) → drop; file present and voice
client connected → pop and play; voice client gone → return `False` without
popping. -/
def pnHeadStep (env : PNEnv) (voice : Bool) (song_id : String) : PNDecision :=
  match env.cache song_id with
  | none => PNDecision.dropHead
  | some entry =>
      match (if entry.is_downloading then env.waitDownload song_id else some entry) with
      | none => PNDecision.dropHead
      | some e =>
          match e.file_path with
          | none => PNDecision.dropHead
          | some fp =>
              if env.fileExists fp = true then
                if voice = true then PNDecision.startPlay song_id e fp
                else PNDecision.noVoice
              else PNDecision.dropHead

/-- Dispatch of `play_next` after the loop step: empty queue (line 1471) →
idle; otherwise peek at the head (line 1477, without removing it). -/
def pnStep (env : PNEnv) (voice : Bool) : List String → PNDecision
  | [] => PNDecision.goIdle
  | song_id :: _ => pnHeadStep env voice song_id

/-- Result of `play_next`: the updated player state and the returned bool,
or a forever-blocked execution.  `fuelOut` only signals that the recursion
was unrolled further than the stated bound, never a behaviour of the code. -/
inductive PNRes where
  | out (s : PNState) (played : Bool) : PNRes
  | deadlock : PNRes
  | fuelOut : PNRes
deriving DecidableEq, Repr

/-- `MusicPlayer.play_next` (lines 1457-1531).  The whole body runs inside
`async with self.queue_lock` (line 1458), a non-reentrant `asyncio.Lock`;
`locked` says whether the calling task already holds that lock, in which
case the acquire suspends forever.  Every drop path does
`self.queue.popleft()` and then `return await self.play_next()` — a
recursive call made WHILE STILL HOLDING the lock, so the recursion is
entered with `locked := true`.  On `startPlay` the head is popped (line
1506), playback of the file starts with the completion callback attached
(lines 1507-1512) and `current` is rebuilt (lines 1514-1520). -/
def play_next (env : PNEnv) : Nat → Bool → PNState → PNRes
  | 0, _, _ => PNRes.fuelOut
  | fuel + 1, locked, s =>
      if locked = true then PNRes.deadlock
      else
        match pnStep env (pnLoopStep (pnAfterEmbed s)).voice_connected
            (pnLoopStep (pnAfterEmbed s)).queue with
        | PNDecision.goIdle =>
            PNRes.out { pnLoopStep (pnAfterEmbed s) with current := none } false
        | PNDecision.dropHead =>
            play_next env fuel true
              { pnLoopStep (pnAfterEmbed s) with
                queue := (pnLoopStep (pnAfterEmbed s)).queue.tail }
        | PNDecision.startPlay song_id e fp =>
            PNRes.out
              { pnLoopStep (pnAfterEmbed s) with
                queue := (pnLoopStep (pnAfterEmbed s)).queue.tail,
                playingFile := some fp,
                afterHookSet := true,
                current := some ⟨e.title, e.duration, e.thumbnail, fp, song_id⟩,
                nowPlaying := some e.title } true
        | PNDecision.noVoice =>
            PNRes.out (pnLoopStep (pnAfterEmbed s)) false

/-- `MusicPlayer.handle_playback_finished` (lines 1533-1540), the `after=`
completion callback: log any error, then call `play_next` afresh (that new
call does not hold the lock). -/
def handle_playback_finished (env : PNEnv) (fuel : Nat) (_error : Option String)
    (s : PNState) : PNRes :=
  play_next env fuel false s

theorem play_next_locked (env : PNEnv) (fuel : Nat) (s : PNState) :
    play_next env fuel true s = PNRes.deadlock ∨
    play_next env fuel true s = PNRes.fuelOut := by
  cases fuel with
  | zero => exact Or.inr rfl
  | succ n => exact Or.inl rfl

theorem pnLoopStep_off (s : PNState) (h : s.loop = false) : pnLoopStep s = s := by
  unfold pnLoopStep
  split
  · rw [if_neg]
    intro hc
    rw [h] at hc
    exact Bool.false_ne_true hc.1
  · rfl

theorem pnStep_startPlay_fileExists (env : PNEnv) (voice : Bool) (q : List String)
    (sid : String) (e : SongData) (fp : String)
    (h : pnStep env voice q = PNDecision.startPlay sid e fp) :
    env.fileExists fp = true := by
  cases q with
  | nil => exact absurd h (by simp [pnStep])
  | cons a l =>
      have h' : pnHeadStep env voice a = PNDecision.startPlay sid e fp := h
      unfold pnHeadStep at h'
      split at h'
      · exact absurd h' (by simp)
      · split at h'
        · exact absurd h' (by simp)
        · split at h'
          · exact absurd h' (by simp)
          · split at h'
            · split at h'
              · rename_i hex _
                injection h' with h1 h2 h3
                rw [← h3]
                exact hex
              · exact absurd h' (by simp)
            · exact absurd h' (by simp)

/-- C4: behaviour of `play_next` called with the queue lock free, for a
player whose loop mode is off.
(1) Empty queue: the current track and the now-playing presentation are
cleared and it returns `False`.
(2) Head entry ready, backing file confirmed on disk, voice connected: only
then is the head removed from the queue; it becomes the current track,
playback of its file starts and the completion callback is registered;
returns `True`.
(3) Head still downloading and the 30 s wait times out: the code pops the
head and recurses — but the recursive call re-acquires the non-reentrant
`queue_lock` that the outer call still holds, so `play_next` BLOCKS FOREVER
instead of advancing to the next entry, contrary to the claim.
(4) Whenever `play_next` returns `True`, the new current track's file was
confirmed to exist and is exactly the file handed to playback.
(5) The registered completion callback re-runs `play_next`. -/
theorem play_next_spec_and_deadlock (env : PNEnv) (fuel : Nat) (s : PNState) :
    (s.queue = [] → s.loop = false →
      play_next env (fuel + 1) false s
        = PNRes.out { s with nowPlaying := none, current := none } false) ∧
    (∀ sid rest e fp, s.queue = sid :: rest → s.loop = false →
      env.cache sid = some e → e.is_downloading = false →
      e.file_path = some fp → env.fileExists fp = true → s.voice_connected = true →
      play_next env (fuel + 1) false s
        = PNRes.out
            { s with
              nowPlaying := some e.title
              queue := rest
              playingFile := some fp
              afterHookSet := true
              current := some ⟨e.title, e.duration, e.thumbnail, fp, sid⟩ } true) ∧
    (∀ sid rest e, s.queue = sid :: rest → s.loop = false →
      env.cache sid = some e → e.is_downloading = true →
      env.waitDownload sid = none →
      play_next env (fuel + 1 + 1) false s = PNRes.deadlock) ∧
    (∀ s', play_next env fuel false s = PNRes.out s' true →
      ∃ c, s'.current = some c ∧ env.fileExists c.file_path = true ∧
        s'.playingFile = some c.file_path) ∧
    (∀ err, handle_playback_finished env fuel err s = play_next env fuel false s) := by
  refine ⟨?_, ?_, ?_, ?_, fun _ => rfl⟩
  · intro hq hl
    rw [play_next]
    rw [if_neg (by simp)]
    rw [pnLoopStep_off (pnAfterEmbed s) hl]
    have hq' : (pnAfterEmbed s).queue = [] := hq
    rw [hq']
    rfl
  · intro sid rest e fp hq hl hc hdl hfp hex hvc
    rw [play_next]
    rw [if_neg (by simp)]
    rw [pnLoopStep_off (pnAfterEmbed s) hl]
    have hq' : (pnAfterEmbed s).queue = sid :: rest := hq
    have hvc' : (pnAfterEmbed s).voice_connected = true := hvc
    have hstep : pnStep env (pnAfterEmbed s).voice_connected (pnAfterEmbed s).queue
        = PNDecision.startPlay sid e fp := by
      rw [hq', hvc']
      show pnHeadStep env true sid = PNDecision.startPlay sid e fp
      simp [pnHeadStep, hc, hdl, hfp, hex]
    rw [hstep]
    simp [pnAfterEmbed, hq]
  · intro sid rest e hq hl hc hdl hw
    rw [play_next]
    rw [if_neg (by simp)]
    rw [pnLoopStep_off (pnAfterEmbed s) hl]
    have hq' : (pnAfterEmbed s).queue = sid :: rest := hq
    have hstep : pnStep env (pnAfterEmbed s).voice_connected (pnAfterEmbed s).queue
        = PNDecision.dropHead := by
      rw [hq']
      show pnHeadStep env (pnAfterEmbed s).voice_connected sid = PNDecision.dropHead
      simp [pnHeadStep, hc, hdl, hw]
    rw [hstep]
    rfl
  · intro s' hout
    cases fuel with
    | zero => exact absurd hout (by simp [play_next])
    | succ n =>
        rw [play_next] at hout
        rw [if_neg (by simp)] at hout
        cases hstep : pnStep env (pnLoopStep (pnAfterEmbed s)).voice_connected
            (pnLoopStep (pnAfterEmbed s)).queue with
        | goIdle =>
            rw [hstep] at hout
            exact absurd hout (by simp)
        | dropHead =>
            rw [hstep] at hout
            rcases play_next_locked env n
                { pnLoopStep (pnAfterEmbed s) with
                  queue := (pnLoopStep (pnAfterEmbed s)).queue.tail } with h | h <;>
              rw [h] at hout <;> exact absurd hout (by simp)
        | startPlay sid e fp =>
            rw [hstep] at hout
            injection hout with h1 h2
            refine ⟨⟨e.title, e.duration, e.thumbnail, fp, sid⟩, ?_, ?_, ?_⟩
            · rw [← h1]
            · exact pnStep_startPlay_fileExists env _ _ sid e fp hstep
            · rw [← h1]
        | noVoice =>
            rw [hstep] at hout
            exact absurd hout (by simp)

/-- A ready cache entry whose file is on disk. -/
def pnReadyEntry : SongData :=
  { title := "B title", url := "u", thumbnail := "th", duration := 50,
    file_path := some "bfile.opus", is_downloading := false, added_at := 0,
    download_retries := 0, max_retries := 3 }

/-- A cache entry whose download never finishes within the 30 s wait. -/
def pnDlEntry : SongData :=
  { title := "A title", url := "u", thumbnail := "th", duration := 60,
    file_path := none, is_downloading := true, added_at := 0,
    download_retries := 0, max_retries := 3 }

/-- Concrete environment: `"A"` is stuck downloading, `"B"` is ready. -/
def pnEnvEx : PNEnv :=
  { cache := fun sid =>
      if sid = "A" then some pnDlEntry
      else if sid = "B" then some pnReadyEntry else none,
    waitDownload := fun _ => none,
    fileExists := fun f => decide (f = "bfile.opus") }

/-- Idle player: empty queue, a stale now-playing message. -/
def pnIdleState : PNState :=
  ⟨[], none, false, some "old", true, none, false⟩

/-- Player whose head entry is ready. -/
def pnReadyState : PNState :=
  ⟨["B"], none, false, none, true, none, false⟩

/-- Player whose head entry is stuck downloading, with a ready entry behind. -/
def pnStuckState : PNState :=
  ⟨["A", "B"], none, false, none, true, none, false⟩

/-- Witness for `play_next_spec_and_deadlock`: on the empty queue it goes
idle returning `False`; on a ready head it pops it and starts playing it;
on a head whose 30 s download wait times out it blocks forever on the
re-acquired queue lock instead of playing `"B"`. -/
theorem play_next_spec_and_deadlock_witness :
    play_next pnEnvEx 1 false pnIdleState
      = PNRes.out ⟨[], none, false, none, true, none, false⟩ false ∧
    play_next pnEnvEx 1 false pnReadyState
      = PNRes.out
          ⟨[], some ⟨"B title", 50, "th", "bfile.opus", "B"⟩, false,
            some "B title", true, some "bfile.opus", true⟩ true ∧
    play_next pnEnvEx 2 false pnStuckState = PNRes.deadlock :=
  ⟨(play_next_spec_and_deadlock pnEnvEx 0 pnIdleState).1 rfl rfl,
   (play_next_spec_and_deadlock pnEnvEx 0 pnReadyState).2.1 "B" [] pnReadyEntry
     "bfile.opus" rfl rfl (by decide) rfl rfl (by decide) rfl,
   (play_next_spec_and_deadlock pnEnvEx 0 pnStuckState).2.2.1 "A" ["B"] pnDlEntry
     rfl rfl (by decide) rfl rfl⟩

end MusicBot
